import Mathlib

/-!
Verification of the score-rating application data layer.

The definitions below are a shallow embedding of the SQL schema,
row-level-security policies, triggers and the `store_ratings` view declared
in `src/pages/Index.tsx`, of the provisioning endpoint handler
(`pages/api/create-user`), and of the two client mutation paths
(`handleRatingSubmit` in `NormalUserDashboard.tsx`, `createStore` in
`SystemAdminDashboard.tsx`).  Tables are lists of rows, identities are
natural numbers, timestamps are natural numbers, and SQL numerics are
rationals.
-/

namespace ScoreRating

/-- `app_role` enum: system_admin, normal_user, store_owner. -/
inductive AppRole where
  | system_admin
  | normal_user
  | store_owner
deriving DecidableEq, Repr

/-- A row of `auth.users`: the identity id, its email, and the
`raw_user_meta_data` keys the trigger reads (`name`, `address`),
each possibly absent. -/
structure AuthUser where
  id : Nat
  email : String
  meta_name : Option String
  meta_address : Option String
deriving DecidableEq, Repr

/-- A row of `public.profiles`. -/
structure Profile where
  id : Nat
  name : String
  email : String
  address : String
  created_at : Nat
  updated_at : Nat
deriving DecidableEq, Repr

/-- A row of `public.user_roles`. -/
structure UserRole where
  id : Nat
  user_id : Nat
  role : AppRole
  created_at : Nat
deriving DecidableEq, Repr

/-- A row of `public.stores`. -/
structure Store where
  id : Nat
  owner_id : Nat
  name : String
  email : String
  address : String
  created_at : Nat
  updated_at : Nat
deriving DecidableEq, Repr

/-- A row of `public.ratings`. -/
structure Rating where
  id : Nat
  user_id : Nat
  store_id : Nat
  rating : Nat
  created_at : Nat
  updated_at : Nat
deriving DecidableEq, Repr

/-- The database state: `auth.users` plus the four public tables. -/
structure DB where
  users : List AuthUser
  profiles : List Profile
  user_roles : List UserRole
  stores : List Store
  ratings : List Rating
deriving DecidableEq, Repr

/-! ## The `store_ratings` view

```
CREATE VIEW public.store_ratings AS
SELECT s.id, s.name, s.email, s.address, s.owner_id,
       COALESCE(AVG(r.rating), 0) AS average_rating,
       COUNT(r.id) AS total_ratings
FROM public.stores s
LEFT JOIN public.ratings r ON s.id = r.store_id
GROUP BY s.id, s.name, s.email, s.address, s.owner_id;
```
-/

/-- A row of the `store_ratings` view. -/
structure StoreRatingRow where
  id : Nat
  name : String
  email : String
  address : String
  owner_id : Nat
  average_rating : ℚ
  total_ratings : Nat
deriving DecidableEq, Repr

/-- The ratings joined to a store by `s.id = r.store_id`. -/
def ratingsFor (db : DB) (sid : Nat) : List Rating :=
  db.ratings.filter (fun r => r.store_id == sid)

/-- SQL `AVG` over an integer column: `NULL` on the empty group,
otherwise the exact rational mean. -/
def sqlAvg (l : List Nat) : Option ℚ :=
  if l.isEmpty then none
  else some ((l.map (fun (n : Nat) => (n : ℚ))).sum / (l.length : ℚ))

/-- SQL `COALESCE(x, d)`. -/
def coalesce (x : Option ℚ) (d : ℚ) : ℚ := x.getD d

/-- The `store_ratings` view: one output row per store, aggregating the
left-joined ratings of that store. -/
def store_ratings (db : DB) : List StoreRatingRow :=
  db.stores.map (fun s =>
    let rs := ratingsFor db s.id
    { id := s.id
      name := s.name
      email := s.email
      address := s.address
      owner_id := s.owner_id
      average_rating := coalesce (sqlAvg (rs.map Rating.rating)) 0
      total_ratings := rs.length })

/-! ## Authorization functions and row-level policies -/

/-- `public.has_role(_user_id, _role)`: whether a `user_roles` row matching
`(user_id, role)` exists.  `SECURITY DEFINER`, so it reads `user_roles`
directly, bypassing the policies. -/
def has_role (db : DB) (uid : Nat) (role : AppRole) : Bool :=
  db.user_roles.any (fun ur => ur.user_id == uid && ur.role == role)

/-- `public.get_current_user_role()`: the role of the first `user_roles` row
for the calling identity (`LIMIT 1`), `NULL` when none exists. -/
def get_current_user_role (db : DB) (uid : Nat) : Option AppRole :=
  ((db.user_roles.filter (fun ur => ur.user_id == uid)).map UserRole.role).head?

/-- The permissive `SELECT` policies on `profiles`, OR-combined as the
engine does: "Users can view their own profile" (`auth.uid() = id`) and
"System admins can view all profiles" (`has_role(auth.uid(), system_admin)`). -/
def profilesSelectAllowed (db : DB) (caller : Nat) (p : Profile) : Bool :=
  (caller == p.id) || has_role db caller AppRole.system_admin

/-- A `SELECT` on `profiles` issued by `caller`: row-level security filters
the table down to the rows some `SELECT` policy accepts; invisible rows are
silently dropped, never an error. -/
def selectProfiles (db : DB) (caller : Nat) : List Profile :=
  db.profiles.filter (fun p => profilesSelectAllowed db caller p)

/-! ## Registration trigger `handle_new_user`

Fires `AFTER INSERT ON auth.users`; inserts a profile row (name and address
coalesced from the signup metadata, email copied from the identity) and a
`user_roles` row with role `normal_user`.  The trigger runs in the same
transaction as the identity insert, so a failure of either insert aborts
registration as a whole. -/

/-- Outcome of a statement that may be rejected by a constraint: on error
the database is returned unchanged together with the error message. -/
structure TxResult where
  err : Option String
  db : DB
deriving Repr

/-- Registration of a new identity `u`: insert into `auth.users` and run
`handle_new_user`.  The profile insert violates the `profiles` primary key
if a profile with id `u.id` exists; the role insert violates
`UNIQUE(user_id, role)` if `(u.id, normal_user)` exists; either violation
rolls back the whole registration. -/
def registerUser (db : DB) (u : AuthUser) (roleRowId now : Nat) : TxResult :=
  if db.users.any (fun au => au.id == u.id) then
    { err := some "duplicate key value violates auth.users primary key", db := db }
  else if db.profiles.any (fun p => p.id == u.id) then
    { err := some "duplicate key value violates profiles primary key", db := db }
  else if db.user_roles.any (fun ur => ur.user_id == u.id && ur.role == AppRole.normal_user) then
    { err := some "duplicate key value violates user_roles user_id role key", db := db }
  else
    { err := none
      db :=
        { db with
          users := db.users ++ [u]
          profiles := db.profiles ++
            [{ id := u.id
               name := u.meta_name.getD "Unknown"
               email := u.email
               address := u.meta_address.getD ""
               created_at := now
               updated_at := now }]
          user_roles := db.user_roles ++
            [{ id := roleRowId, user_id := u.id, role := AppRole.normal_user,
               created_at := now }] } }

/-! ## Timestamp trigger `update_updated_at_column`

`BEFORE UPDATE` on `profiles`, `stores`, `ratings`:
`NEW.updated_at = now(); RETURN NEW;`. -/

/-- The trigger body applied to the NEW row of `ratings`. -/
def update_updated_at_column_rating (newRow : Rating) (now : Nat) : Rating :=
  { newRow with updated_at := now }

/-- The trigger body applied to the NEW row of `profiles`. -/
def update_updated_at_column_profile (newRow : Profile) (now : Nat) : Profile :=
  { newRow with updated_at := now }

/-- The trigger body applied to the NEW row of `stores`. -/
def update_updated_at_column_store (newRow : Store) (now : Nat) : Store :=
  { newRow with updated_at := now }

/-- An `UPDATE` statement on `ratings`: each row matching `pred` is replaced
by the caller NEW row `f r` after the `BEFORE UPDATE` trigger rewrote its
`updated_at` to `now`.  `f` models the `SET` clause and may set any column,
`updated_at` included. -/
def updateRatingsRows (db : DB) (pred : Rating → Bool) (f : Rating → Rating) (now : Nat) : DB :=
  { db with
    ratings := db.ratings.map (fun r =>
      if pred r then update_updated_at_column_rating (f r) now else r) }

/-- An `UPDATE` statement on `profiles`, with the trigger applied. -/
def updateProfilesRows (db : DB) (pred : Profile → Bool) (f : Profile → Profile) (now : Nat) : DB :=
  { db with
    profiles := db.profiles.map (fun p =>
      if pred p then update_updated_at_column_profile (f p) now else p) }

/-- An `UPDATE` statement on `stores`, with the trigger applied. -/
def updateStoresRows (db : DB) (pred : Store → Bool) (f : Store → Store) (now : Nat) : DB :=
  { db with
    stores := db.stores.map (fun s =>
      if pred s then update_updated_at_column_store (f s) now else s) }

/-! ## Inserting into `ratings`

Constraints on `public.ratings`: `CHECK (rating >= 1 AND rating <= 5)`,
foreign keys on `user_id` and `store_id`, and `UNIQUE(user_id, store_id)`.
A violated constraint rejects the statement and leaves the table as it
was. -/

/-- The check constraint `rating >= 1 AND rating <= 5`. -/
def ratingCheckOk (n : Nat) : Bool :=
  decide (1 ≤ n) && decide (n ≤ 5)

/-- `INSERT INTO ratings`: enforced in order, the check constraint, the two
foreign keys, and `UNIQUE(user_id, store_id)`. -/
def insertRating (db : DB) (r : Rating) : TxResult :=
  if !ratingCheckOk r.rating then
    { err := some "new row violates check constraint ratings rating check", db := db }
  else if !db.users.any (fun au => au.id == r.user_id) then
    { err := some "insert violates foreign key constraint ratings user id fkey", db := db }
  else if !db.stores.any (fun s => s.id == r.store_id) then
    { err := some "insert violates foreign key constraint ratings store id fkey", db := db }
  else if db.ratings.any (fun q => q.user_id == r.user_id && q.store_id == r.store_id) then
    { err := some "duplicate key value violates unique constraint ratings user id store id key",
      db := db }
  else
    { err := none, db := { db with ratings := db.ratings ++ [r] } }

/-- JS truthiness of the fetched `user_rating` field (`undefined` when the
user has no rating, otherwise the numeric rating; `0` would be falsy). -/
def jsTruthyOptNat (v : Option Nat) : Bool :=
  match v with
  | none => false
  | some n => n != 0

/-- `handleRatingSubmit` from `NormalUserDashboard.tsx`: no-op when
`rating === 0`; when `selectedStore.user_rating` is truthy, an `UPDATE` of
`ratings` keyed on user_id and store_id (subject to the check constraint and
the `updated_at` trigger); otherwise an `INSERT` of a new row. -/
def handleRatingSubmit (db : DB) (userId storeId : Nat) (userRating : Option Nat)
    (rating : Nat) (newId now : Nat) : TxResult :=
  if rating == 0 then { err := none, db := db }
  else if jsTruthyOptNat userRating then
    if !ratingCheckOk rating then
      { err := some "new row violates check constraint ratings rating check", db := db }
    else
      { err := none
        db := updateRatingsRows db
          (fun r => r.user_id == userId && r.store_id == storeId)
          (fun r => { r with rating := rating }) now }
  else
    insertRating db
      { id := newId, user_id := userId, store_id := storeId, rating := rating,
        created_at := now, updated_at := now }

/-! ## The provisioning endpoint `POST /api/create-user`

`pages/api/create-user` (Next.js API route): rejects non-POST with 405,
parses string bodies (400 on a parse failure), calls the admin createUser
of the provider with email, password and the user metadata, optionally
updates `user_roles`, and answers 200 with the created user or 400 with
the error message of the provider. -/

/-- The destructured JSON body `{name, email, password, address, role}`;
each field may be absent. -/
structure BodyFields where
  name : Option String
  email : Option String
  password : Option String
  address : Option String
  role : Option String
deriving DecidableEq, Repr

/-- The request body: either a string (whose `JSON.parse` yielded the given
fields, or threw — `none`) or an already-parsed object. -/
inductive ReqBody where
  | strBody (parsed : Option BodyFields)
  | objBody (fields : BodyFields)
deriving DecidableEq, Repr

/-- The fields the handler destructures, after the string-body parsing
step; `none` when parsing failed. -/
def bodyFields (b : ReqBody) : Option BodyFields :=
  match b with
  | .strBody parsed => parsed
  | .objBody fields => fields

/-- JS truthiness of the `role` field (`undefined`, `null` and `""` are
falsy). -/
def jsTruthyOptStr (v : Option String) : Bool :=
  match v with
  | none => false
  | some s => !s.isEmpty

/-- Parsing a string into the `app_role` enum; an invalid value makes the
`user_roles` update fail. -/
def parseAppRole (s : String) : Option AppRole :=
  if s == "system_admin" then some AppRole.system_admin
  else if s == "normal_user" then some AppRole.normal_user
  else if s == "store_owner" then some AppRole.store_owner
  else none

/-- The HTTP response of the handler. -/
inductive ApiResponse where
  /-- status 405, error "Method not allowed". -/
  | methodNotAllowed
  /-- status 400, error `msg`. -/
  | badRequest (msg : String)
  /-- status 200, success true, user with id, email and user metadata. -/
  | okCreated (uid : Nat) (email : String) (meta_name meta_address : Option String)
deriving DecidableEq, Repr

/-- The status code of a response. -/
def ApiResponse.status : ApiResponse → Nat
  | .methodNotAllowed => 405
  | .badRequest _ => 400
  | .okCreated _ _ _ _ => 200

/-- The provisioning handler, with the identity-creation outcome of the provider
abstracted as `attempt` (`.error msg`: `createUser` failed; `.ok uid`: the
provider assigns id `uid` and the registration trigger runs atomically with
the insert into `auth.users`) and a residual failure oracle `roleUpdateErr`
for the `user_roles` update.  Returns the response and the final database
state. -/
def createUserHandler (method : String) (body : ReqBody) (db : DB)
    (attempt : Except String Nat) (roleUpdateErr : Option String)
    (roleRowId now : Nat) : ApiResponse × DB :=
  if method != "POST" then (.methodNotAllowed, db)
  else
    match bodyFields body with
    | none => (.badRequest "Invalid JSON format", db)
    | some f =>
      match attempt with
      | .error msg => (.badRequest msg, db)
      | .ok uid =>
        let tx := registerUser db
          { id := uid, email := f.email.getD "", meta_name := f.name,
            meta_address := f.address } roleRowId now
        match tx.err with
        | some msg => (.badRequest msg, db)
        | none =>
          if jsTruthyOptStr f.role && (f.role.getD "" != "normal_user") then
            match parseAppRole (f.role.getD "") with
            | none => (.badRequest "invalid input value for enum app role", tx.db)
            | some ar =>
              match roleUpdateErr with
              | some msg => (.badRequest msg, tx.db)
              | none =>
                (.okCreated uid (f.email.getD "") f.name f.address,
                 { tx.db with
                   user_roles := tx.db.user_roles.map (fun ur =>
                     if ur.user_id == uid then { ur with role := ar } else ur) })
          else
            (.okCreated uid (f.email.getD "") f.name f.address, tx.db)

/-! ## `createStore` from `SystemAdminDashboard.tsx`

Looks the owner up by email with `.single()`, inserts the store, then
updates the `user_roles` rows of the owner to `store_owner` without inspecting
the result of that update, and reports success. -/

/-- `.single()` on `profiles` filtered by email: a row when exactly one
matches, `null` otherwise. -/
def singleProfileByEmail (db : DB) (e : String) : Option Profile :=
  match db.profiles.filter (fun p => p.email == e) with
  | [p] => some p
  | _ => none

/-- The outcome `createStore` reports to the UI. -/
inductive CreateStoreOutcome where
  /-- toast "Owner not found with this email". -/
  | ownerNotFound
  /-- the store insert errored; toast with the message. -/
  | insertFailed (msg : String)
  /-- toast "Store created successfully". -/
  | success
deriving DecidableEq, Repr

/-- `createStore`: owner lookup, store insert (`insertErr` abstracts an
engine rejection), then the unchecked `user_roles` update
(`roleUpdateFails` abstracts its failure — when it fails the roles are left
unchanged, and the code never looks at the error). -/
def createStore (db : DB) (name email address ownerEmail : String)
    (newStoreId : Nat) (insertErr : Option String) (roleUpdateFails : Bool)
    (now : Nat) : CreateStoreOutcome × DB :=
  match singleProfileByEmail db ownerEmail with
  | none => (.ownerNotFound, db)
  | some owner =>
    match insertErr with
    | some msg => (.insertFailed msg, db)
    | none =>
      let db1 := { db with stores := db.stores ++
        [{ id := newStoreId, owner_id := owner.id, name := name, email := email,
           address := address, created_at := now, updated_at := now }] }
      let db2 :=
        if roleUpdateFails then db1
        else
          { db1 with
            user_roles := db1.user_roles.map (fun ur =>
              if ur.user_id == owner.id then { ur with role := AppRole.store_owner }
              else ur) }
      (.success, db2)

/-- The `UNIQUE(user_id, store_id)` invariant on `ratings`: no two rows
share the same (user, store) pair. -/
def pairUnique (db : DB) : Prop :=
  db.ratings.Pairwise (fun a b => ¬(a.user_id = b.user_id ∧ a.store_id = b.store_id))

instance (db : DB) : Decidable (pairUnique db) := by
  unfold pairUnique
  infer_instance

/-! ## Concrete instances used to instantiate the theorems -/

/-- A store with two ratings in `exDB`. -/
def exStore10 : Store :=
  { id := 10, owner_id := 2, name := "S1", email := "s1", address := "",
    created_at := 0, updated_at := 0 }

/-- A store with no ratings in `exDB`. -/
def exStore11 : Store :=
  { id := 11, owner_id := 2, name := "S2", email := "s2", address := "",
    created_at := 0, updated_at := 0 }

/-- A small database: two registered users, two stores, two ratings on
store 10 (values 4 and 2) and none on store 11. -/
def exDB : DB :=
  { users := [{ id := 1, email := "a", meta_name := some "Alice", meta_address := none },
              { id := 2, email := "b", meta_name := none, meta_address := some "Main St" }]
    profiles := [{ id := 1, name := "Alice", email := "a", address := "",
                   created_at := 0, updated_at := 0 },
                 { id := 2, name := "Bob", email := "b", address := "Main St",
                   created_at := 0, updated_at := 0 }]
    user_roles := [{ id := 50, user_id := 1, role := AppRole.normal_user, created_at := 0 },
                   { id := 51, user_id := 2, role := AppRole.normal_user, created_at := 0 }]
    stores := [exStore10, exStore11]
    ratings := [{ id := 100, user_id := 1, store_id := 10, rating := 4,
                  created_at := 0, updated_at := 0 },
                { id := 101, user_id := 2, store_id := 10, rating := 2,
                  created_at := 0, updated_at := 0 }] }

/-- An insert attempt duplicating the (1, 10) pair already in `exDB`. -/
def exDupRating : Rating :=
  { id := 102, user_id := 1, store_id := 10, rating := 5, created_at := 1, updated_at := 1 }

/-- The empty database. -/
def exEmptyDB : DB :=
  { users := [], profiles := [], user_roles := [], stores := [], ratings := [] }

/-- A request body with every field absent: in particular no email and no
password. -/
def exBodyAllNone : BodyFields :=
  { name := none, email := none, password := none, address := none, role := none }

/-- A request body asking for the store_owner role. -/
def exBodyOwner : BodyFields :=
  { name := some "Jane", email := some "j", password := some "pw",
    address := none, role := some "store_owner" }

/-- An UPDATE row filter on `ratings` matching the row with id 100. -/
def exPredR : Rating → Bool := fun r => r.id == 100

/-- A SET clause on `ratings` that also tries to smuggle in a caller-chosen
`updated_at` of 999. -/
def exFR : Rating → Rating := fun r => { r with rating := 1, updated_at := 999 }

/-- An UPDATE row filter on `profiles` matching the row with id 1. -/
def exPredP : Profile → Bool := fun p => p.id == 1

/-- A SET clause on `profiles` that also tries to set `updated_at` to 999. -/
def exFP : Profile → Profile := fun p => { p with name := "A2", updated_at := 999 }

/-- An UPDATE row filter on `stores` matching the row with id 10. -/
def exPredS : Store → Bool := fun s => s.id == 10

/-- A SET clause on `stores` that also tries to set `updated_at` to 999. -/
def exFS : Store → Store := fun s => { s with address := "B", updated_at := 999 }

/-! ## C1: correctness of the `store_ratings` view -/

/-- C1: for every store in the `store_ratings` view, a store with no
ratings shows `average_rating = 0` and `total_ratings = 0` (via COALESCE
over the left join), and a store with ratings r1..rn shows exactly the
arithmetic mean of r1..rn as `average_rating` and `total_ratings = n`. -/
theorem store_ratings_view_correct (db : DB) (s : Store) (hs : s ∈ db.stores) :
    ∃ row ∈ store_ratings db,
      row.id = s.id ∧ row.owner_id = s.owner_id ∧
      row.total_ratings = (ratingsFor db s.id).length ∧
      (ratingsFor db s.id = [] → row.average_rating = 0 ∧ row.total_ratings = 0) ∧
      (ratingsFor db s.id ≠ [] →
        row.average_rating =
          ((ratingsFor db s.id).map (fun r => (r.rating : ℚ))).sum /
            ((ratingsFor db s.id).length : ℚ)) := by
  unfold store_ratings
  refine ⟨_, List.mem_map_of_mem _ hs, rfl, rfl, rfl, ?_, ?_⟩
  · intro h
    simp [coalesce, sqlAvg, h]
  · intro h
    have hne : ((ratingsFor db s.id).map Rating.rating).isEmpty = false := by
      simp [List.isEmpty_iff, List.map_eq_nil_iff, h]
    have hmaps : ((ratingsFor db s.id).map Rating.rating).map (fun (n : Nat) => (n : ℚ)) =
        (ratingsFor db s.id).map (fun r => (r.rating : ℚ)) := by
      rw [List.map_map]; rfl
    simp only [coalesce, sqlAvg, hne, Bool.false_eq_true, if_false, Option.getD_some,
      hmaps, List.length_map]

/-- C1 witness: instantiation at `exStore10` in `exDB`. -/
theorem store_ratings_view_correct_witness :
    exStore10 ∈ exDB.stores ∧
    ∃ row ∈ store_ratings exDB,
      row.id = exStore10.id ∧ row.owner_id = exStore10.owner_id ∧
      row.total_ratings = (ratingsFor exDB exStore10.id).length ∧
      (ratingsFor exDB exStore10.id = [] →
        row.average_rating = 0 ∧ row.total_ratings = 0) ∧
      (ratingsFor exDB exStore10.id ≠ [] →
        row.average_rating =
          ((ratingsFor exDB exStore10.id).map (fun r => (r.rating : ℚ))).sum /
            ((ratingsFor exDB exStore10.id).length : ℚ)) :=
  ⟨by decide, store_ratings_view_correct exDB exStore10 (by decide)⟩

/-! ## C2: one rating per (user, store) pair -/

/-- C2: the at-most-one-rating-per-(user, store) invariant is preserved by
any insert into `ratings`, and an insert for a pair that already has a row
fails with a uniqueness violation and leaves the ratings table unchanged. -/
theorem ratings_unique_pair (db : DB) (r : Rating)
    (hchk : ratingCheckOk r.rating = true)
    (huser : db.users.any (fun au => au.id == r.user_id) = true)
    (hstore : db.stores.any (fun s => s.id == r.store_id) = true) :
    (pairUnique db → pairUnique (insertRating db r).db) ∧
    ((∃ q ∈ db.ratings, q.user_id = r.user_id ∧ q.store_id = r.store_id) →
      (insertRating db r).err =
        some "duplicate key value violates unique constraint ratings user id store id key" ∧
      (insertRating db r).db = db) := by
  constructor
  · intro hu
    by_cases hdup :
        db.ratings.any (fun q => q.user_id == r.user_id && q.store_id == r.store_id) = true
    · simpa [insertRating, hchk, huser, hstore, hdup] using hu
    · have hres : (insertRating db r).db.ratings = db.ratings ++ [r] := by
        simp [insertRating, hchk, huser, hstore, hdup]
      unfold pairUnique
      rw [hres, List.pairwise_append]
      refine ⟨hu, List.pairwise_singleton _ _, ?_⟩
      intro a ha b hb
      rw [List.mem_singleton] at hb
      subst hb
      rintro ⟨e1, e2⟩
      apply hdup
      rw [List.any_eq_true]
      exact ⟨a, ha, by simp [e1, e2]⟩
  · rintro ⟨q, hq, h1, h2⟩
    have hdup :
        db.ratings.any (fun q => q.user_id == r.user_id && q.store_id == r.store_id) = true := by
      rw [List.any_eq_true]
      exact ⟨q, hq, by simp [h1, h2]⟩
    constructor
    · simp [insertRating, hchk, huser, hstore, hdup]
    · simp [insertRating, hchk, huser, hstore, hdup]

/-- C2 witness: instantiation at the duplicate insert `exDupRating` into
`exDB`, which already holds a rating for the pair (1, 10). -/
theorem ratings_unique_pair_witness :
    (ratingCheckOk exDupRating.rating = true ∧
      exDB.users.any (fun au => au.id == exDupRating.user_id) = true ∧
      exDB.stores.any (fun s => s.id == exDupRating.store_id) = true) ∧
    ((pairUnique exDB → pairUnique (insertRating exDB exDupRating).db) ∧
      ((∃ q ∈ exDB.ratings,
          q.user_id = exDupRating.user_id ∧ q.store_id = exDupRating.store_id) →
        (insertRating exDB exDupRating).err =
          some "duplicate key value violates unique constraint ratings user id store id key" ∧
        (insertRating exDB exDupRating).db = exDB)) :=
  ⟨⟨by decide, by decide, by decide⟩,
    ratings_unique_pair exDB exDupRating (by decide) (by decide) (by decide)⟩

/-! ## C3: registration trigger -/

/-- C3: registering a fresh identity succeeds and inserts exactly one
profile row — id equal to the identity id, name from the signup metadata
defaulting to "Unknown", address from the metadata defaulting to the empty
string, email copied from the identity — and exactly one `user_roles` row
with role normal_user; and whenever registration fails, the database is
left unchanged (the two inserts and the identity creation are atomic). -/
theorem handle_new_user_registration (db : DB) (u : AuthUser) (roleRowId now : Nat)
    (hu : ∀ au ∈ db.users, au.id ≠ u.id)
    (hp : ∀ p ∈ db.profiles, p.id ≠ u.id)
    (hr : ∀ ur ∈ db.user_roles, ur.user_id ≠ u.id) :
    (registerUser db u roleRowId now).err = none ∧
    (registerUser db u roleRowId now).db.profiles.filter (fun p => p.id == u.id) =
      [{ id := u.id, name := u.meta_name.getD "Unknown", email := u.email,
         address := u.meta_address.getD "", created_at := now, updated_at := now }] ∧
    (registerUser db u roleRowId now).db.user_roles.filter (fun ur => ur.user_id == u.id) =
      [{ id := roleRowId, user_id := u.id, role := AppRole.normal_user, created_at := now }] ∧
    (∀ db2 u2 rid n2, (registerUser db2 u2 rid n2).err.isSome = true →
      (registerUser db2 u2 rid n2).db = db2) := by
  have h1 : db.users.any (fun au => au.id == u.id) = false := by
    rw [List.any_eq_false]
    intro a ha
    simpa using hu a ha
  have h2 : db.profiles.any (fun p => p.id == u.id) = false := by
    rw [List.any_eq_false]
    intro a ha
    simpa using hp a ha
  have h3 : db.user_roles.any
      (fun ur => ur.user_id == u.id && ur.role == AppRole.normal_user) = false := by
    rw [List.any_eq_false]
    intro a ha
    simp only [Bool.and_eq_true, beq_iff_eq, not_and]
    intro e
    exact absurd e (hr a ha)
  refine ⟨?_, ?_, ?_, ?_⟩
  · simp [registerUser, h1, h2, h3]
  · have hdbeq : (registerUser db u roleRowId now).db.profiles = db.profiles ++
        [{ id := u.id, name := u.meta_name.getD "Unknown", email := u.email,
           address := u.meta_address.getD "", created_at := now, updated_at := now }] := by
      simp [registerUser, h1, h2, h3]
    rw [hdbeq, List.filter_append]
    have hold : db.profiles.filter (fun p => p.id == u.id) = [] := by
      rw [List.filter_eq_nil_iff]
      intro a ha
      simpa using hp a ha
    rw [hold]
    simp
  · have hdbeq : (registerUser db u roleRowId now).db.user_roles = db.user_roles ++
        [{ id := roleRowId, user_id := u.id, role := AppRole.normal_user,
           created_at := now }] := by
      simp [registerUser, h1, h2, h3]
    rw [hdbeq, List.filter_append]
    have hold : db.user_roles.filter (fun ur => ur.user_id == u.id) = [] := by
      rw [List.filter_eq_nil_iff]
      intro a ha
      simpa using hr a ha
    rw [hold]
    simp
  · intro db2 u2 rid n2
    unfold registerUser
    split
    · intro _; rfl
    · split
      · intro _; rfl
      · split
        · intro _; rfl
        · intro h
          simp at h

/-- C3 witness: registering identity 3 with metadata name "Jane" and no
address into `exDB`. -/
theorem handle_new_user_registration_witness :
    (∀ au ∈ exDB.users, au.id ≠ 3) ∧ (∀ p ∈ exDB.profiles, p.id ≠ 3) ∧
    (∀ ur ∈ exDB.user_roles, ur.user_id ≠ 3) ∧
    ((registerUser exDB ⟨3, "c", some "Jane", none⟩ 52 7).err = none ∧
     (registerUser exDB ⟨3, "c", some "Jane", none⟩ 52 7).db.profiles.filter
        (fun p => p.id == 3) =
      [{ id := 3, name := "Jane", email := "c", address := "",
         created_at := 7, updated_at := 7 }] ∧
     (registerUser exDB ⟨3, "c", some "Jane", none⟩ 52 7).db.user_roles.filter
        (fun ur => ur.user_id == 3) =
      [{ id := 52, user_id := 3, role := AppRole.normal_user, created_at := 7 }] ∧
     (∀ db2 u2 rid n2, (registerUser db2 u2 rid n2).err.isSome = true →
       (registerUser db2 u2 rid n2).db = db2)) :=
  ⟨by decide, by decide, by decide,
    handle_new_user_registration exDB ⟨3, "c", some "Jane", none⟩ 52 7
      (by decide) (by decide) (by decide)⟩

/-! ## C4: profiles are invisible to non-admin strangers -/

/-- C4: for a caller without the system_admin role, a select on `profiles`
returns exactly the rows whose id is the caller (so any other user row is
invisible and contributes zero rows, not an error), and the observed result
does not change when the other rows of `profiles` change. -/
theorem profiles_select_non_admin (db : DB) (caller : Nat)
    (hadmin : has_role db caller AppRole.system_admin = false) :
    selectProfiles db caller = db.profiles.filter (fun p => caller == p.id) ∧
    (∀ p ∈ selectProfiles db caller, p.id = caller) ∧
    (∀ db2, has_role db2 caller AppRole.system_admin = false →
      db.profiles.filter (fun p => caller == p.id) =
        db2.profiles.filter (fun p => caller == p.id) →
      selectProfiles db caller = selectProfiles db2 caller) := by
  have heq : ∀ d : DB, has_role d caller AppRole.system_admin = false →
      selectProfiles d caller = d.profiles.filter (fun p => caller == p.id) := by
    intro d hd
    unfold selectProfiles profilesSelectAllowed
    simp only [hd, Bool.or_false]
  refine ⟨heq db hadmin, ?_, ?_⟩
  · intro p hp
    rw [heq db hadmin] at hp
    have hmem : caller = p.id := by simpa using List.of_mem_filter hp
    exact hmem.symm
  · intro db2 h2 hfilter
    rw [heq db hadmin, heq db2 h2]
    exact hfilter

/-- C4 witness: caller 1 (a normal_user) in `exDB`. -/
theorem profiles_select_non_admin_witness :
    has_role exDB 1 AppRole.system_admin = false ∧
    (selectProfiles exDB 1 = exDB.profiles.filter (fun p => (1 : Nat) == p.id) ∧
     (∀ p ∈ selectProfiles exDB 1, p.id = 1) ∧
     (∀ db2, has_role db2 1 AppRole.system_admin = false →
       exDB.profiles.filter (fun p => (1 : Nat) == p.id) =
         db2.profiles.filter (fun p => (1 : Nat) == p.id) →
       selectProfiles exDB 1 = selectProfiles db2 1)) :=
  ⟨by decide, profiles_select_non_admin exDB 1 (by decide)⟩

/-! ## C5: validation performed by the provisioning handler -/

/-- C5 counterexample: a POST request whose body has neither email nor
password is not rejected by the handler; with a provider that accepts the
forwarded request, the response status is 200, not 400 — so the handler
itself performs no email/password presence validation. -/
theorem create_user_no_presence_check :
    (createUserHandler "POST" (ReqBody.objBody exBodyAllNone) exEmptyDB
        (Except.ok 7) none 1 0).1.status = 200 ∧
    (createUserHandler "POST" (ReqBody.objBody exBodyAllNone) exEmptyDB
        (Except.ok 7) none 1 0).1.status ≠ 400 := by
  constructor
  · decide
  · decide

/-- C5 (amended): the handler validates the request method (405 for any
non-POST request) and the JSON shape of string bodies (400 with an error
string on a parse failure); it does not itself check the presence of email
and password but forwards them to the provider, answering 400 with the
message of the provider when identity creation is rejected, and 200 with
success and the user fields (id, email, metadata) when creation succeeds
and no role overwrite is requested. -/
theorem create_user_handler_responses (method : String) (body : ReqBody) (db : DB)
    (attempt : Except String Nat) (roleUpdateErr : Option String) (rid now : Nat) :
    (method ≠ "POST" →
      (createUserHandler method body db attempt roleUpdateErr rid now).1 =
        ApiResponse.methodNotAllowed ∧
      (createUserHandler method body db attempt roleUpdateErr rid now).1.status = 405) ∧
    (method = "POST" → bodyFields body = none →
      (createUserHandler method body db attempt roleUpdateErr rid now).1 =
        ApiResponse.badRequest "Invalid JSON format") ∧
    (∀ f msg, method = "POST" → bodyFields body = some f →
      attempt = Except.error msg →
      (createUserHandler method body db attempt roleUpdateErr rid now).1 =
        ApiResponse.badRequest msg ∧
      (createUserHandler method body db attempt roleUpdateErr rid now).1.status = 400) ∧
    (∀ f uid, method = "POST" → bodyFields body = some f → attempt = Except.ok uid →
      (registerUser db { id := uid, email := f.email.getD "", meta_name := f.name,
                         meta_address := f.address } rid now).err = none →
      (jsTruthyOptStr f.role && (f.role.getD "" != "normal_user")) = false →
      (createUserHandler method body db attempt roleUpdateErr rid now).1 =
        ApiResponse.okCreated uid (f.email.getD "") f.name f.address) := by
  refine ⟨?_, ?_, ?_, ?_⟩
  · intro h
    have hm : (method != "POST") = true := by simpa using h
    constructor
    · simp [createUserHandler, hm]
    · simp [createUserHandler, hm, ApiResponse.status]
  · intro hm hb
    subst hm
    simp [createUserHandler, hb]
  · intro f msg hm hb ha
    subst hm ha
    constructor
    · simp [createUserHandler, hb]
    · simp [createUserHandler, hb, ApiResponse.status]
  · intro f uid hm hb ha herr hrole
    subst hm ha
    simp [createUserHandler, hb, herr, hrole]

/-- C5 witness for the amended claim: a GET request is answered with 405,
and the concrete all-absent POST body with an accepting provider gets the
200 success response. -/
theorem create_user_handler_responses_witness :
    ("GET" ≠ "POST" ∧
      ((createUserHandler "GET" (ReqBody.objBody exBodyAllNone) exEmptyDB
          (Except.ok 7) none 1 0).1 = ApiResponse.methodNotAllowed ∧
        (createUserHandler "GET" (ReqBody.objBody exBodyAllNone) exEmptyDB
          (Except.ok 7) none 1 0).1.status = 405)) ∧
    (bodyFields (ReqBody.objBody exBodyAllNone) = some exBodyAllNone ∧
      (registerUser exEmptyDB
        { id := 7, email := exBodyAllNone.email.getD "",
          meta_name := exBodyAllNone.name,
          meta_address := exBodyAllNone.address } 1 0).err = none ∧
      (jsTruthyOptStr exBodyAllNone.role &&
        (exBodyAllNone.role.getD "" != "normal_user")) = false ∧
      (createUserHandler "POST" (ReqBody.objBody exBodyAllNone) exEmptyDB
          (Except.ok 7) none 1 0).1 =
        ApiResponse.okCreated 7 (exBodyAllNone.email.getD "")
          exBodyAllNone.name exBodyAllNone.address) :=
  ⟨⟨by decide,
    (create_user_handler_responses "GET" (ReqBody.objBody exBodyAllNone) exEmptyDB
      (Except.ok 7) none 1 0).1 (by decide)⟩,
   ⟨by decide, by decide, by decide,
    ((create_user_handler_responses "POST" (ReqBody.objBody exBodyAllNone) exEmptyDB
        (Except.ok 7) none 1 0).2.2.2 exBodyAllNone 7 rfl rfl rfl (by decide)
      (by decide))⟩⟩

/-! ## C6: partial provisioning failure is reported but not rolled back -/

/-- C6: when identity creation succeeds for a fresh id but the subsequent
role update fails, the handler answers 400 with the error message of the
provider, while the created identity persists and its role rows are exactly
the default normal_user assignment of the registration trigger: no
compensating rollback of the identity creation is performed. -/
theorem provisioning_partial_failure (db : DB) (f : BodyFields)
    (uid rid now : Nat) (msg : String) (ar : AppRole)
    (hu : ∀ au ∈ db.users, au.id ≠ uid)
    (hp : ∀ p ∈ db.profiles, p.id ≠ uid)
    (hr : ∀ ur ∈ db.user_roles, ur.user_id ≠ uid)
    (htruthy : jsTruthyOptStr f.role = true)
    (hnotnormal : (f.role.getD "" != "normal_user") = true)
    (hparse : parseAppRole (f.role.getD "") = some ar) :
    (createUserHandler "POST" (ReqBody.objBody f) db (Except.ok uid)
        (some msg) rid now).1 = ApiResponse.badRequest msg ∧
    (createUserHandler "POST" (ReqBody.objBody f) db (Except.ok uid)
        (some msg) rid now).1.status = 400 ∧
    (createUserHandler "POST" (ReqBody.objBody f) db (Except.ok uid)
        (some msg) rid now).2.users.any (fun au => au.id == uid) = true ∧
    ((createUserHandler "POST" (ReqBody.objBody f) db (Except.ok uid)
        (some msg) rid now).2.user_roles.filter
        (fun ur => ur.user_id == uid)).map UserRole.role = [AppRole.normal_user] := by
  have h1 : db.users.any (fun au => au.id == uid) = false := by
    rw [List.any_eq_false]
    intro a ha
    simpa using hu a ha
  have h2 : db.profiles.any (fun p => p.id == uid) = false := by
    rw [List.any_eq_false]
    intro a ha
    simpa using hp a ha
  have h3 : db.user_roles.any
      (fun ur => ur.user_id == uid && ur.role == AppRole.normal_user) = false := by
    rw [List.any_eq_false]
    intro a ha
    simp only [Bool.and_eq_true, beq_iff_eq, not_and]
    intro e
    exact absurd e (hr a ha)
  have hroles : db.user_roles.filter (fun ur => ur.user_id == uid) = [] := by
    rw [List.filter_eq_nil_iff]
    intro a ha
    simpa using hr a ha
  refine ⟨?_, ?_, ?_, ?_⟩
  · simp [createUserHandler, bodyFields, registerUser, h1, h2, h3, htruthy, hnotnormal, hparse]
  · simp [createUserHandler, bodyFields, registerUser, h1, h2, h3, htruthy, hnotnormal, hparse,
      ApiResponse.status]
  · simp [createUserHandler, bodyFields, registerUser, h1, h2, h3, htruthy, hnotnormal, hparse]
  · have hdbeq : (createUserHandler "POST" (ReqBody.objBody f) db (Except.ok uid)
        (some msg) rid now).2.user_roles = db.user_roles ++
        [{ id := rid, user_id := uid, role := AppRole.normal_user, created_at := now }] := by
      simp [createUserHandler, bodyFields, registerUser, h1, h2, h3, htruthy, hnotnormal, hparse]
    rw [hdbeq, List.filter_append, hroles]
    simp

/-- C6 witness: provisioning a fresh identity 7 into `exDB` with requested
role store_owner, where the role update fails with message "boom". -/
theorem provisioning_partial_failure_witness :
    ((∀ au ∈ exDB.users, au.id ≠ 7) ∧ (∀ p ∈ exDB.profiles, p.id ≠ 7) ∧
     (∀ ur ∈ exDB.user_roles, ur.user_id ≠ 7) ∧
     jsTruthyOptStr exBodyOwner.role = true ∧
     (exBodyOwner.role.getD "" != "normal_user") = true ∧
     parseAppRole (exBodyOwner.role.getD "") = some AppRole.store_owner) ∧
    ((createUserHandler "POST" (ReqBody.objBody exBodyOwner) exDB (Except.ok 7)
        (some "boom") 52 9).1 = ApiResponse.badRequest "boom" ∧
     (createUserHandler "POST" (ReqBody.objBody exBodyOwner) exDB (Except.ok 7)
        (some "boom") 52 9).1.status = 400 ∧
     (createUserHandler "POST" (ReqBody.objBody exBodyOwner) exDB (Except.ok 7)
        (some "boom") 52 9).2.users.any (fun au => au.id == 7) = true ∧
     ((createUserHandler "POST" (ReqBody.objBody exBodyOwner) exDB (Except.ok 7)
        (some "boom") 52 9).2.user_roles.filter
        (fun ur => ur.user_id == 7)).map UserRole.role = [AppRole.normal_user]) :=
  ⟨⟨by decide, by decide, by decide, by decide, by decide, by decide⟩,
    provisioning_partial_failure exDB exBodyOwner 7 52 9 "boom" AppRole.store_owner
      (by decide) (by decide) (by decide) (by decide) (by decide) (by decide)⟩

/-! ## C9: default-role requests never touch user_roles -/

/-- C9: when the requested role is absent or equal to normal_user, the
handler performs no write to `user_roles` after identity creation — the
final state is exactly the one the registration trigger produced, whatever
the role-update oracle would have answered — and the request returns the
200 success response. -/
theorem provisioning_default_role_untouched (db : DB) (f : BodyFields)
    (uid rid now : Nat) (roleUpdateErr : Option String)
    (hu : ∀ au ∈ db.users, au.id ≠ uid)
    (hp : ∀ p ∈ db.profiles, p.id ≠ uid)
    (hr : ∀ ur ∈ db.user_roles, ur.user_id ≠ uid)
    (hrole : f.role = none ∨ f.role = some "normal_user") :
    (createUserHandler "POST" (ReqBody.objBody f) db (Except.ok uid)
        roleUpdateErr rid now).1 =
      ApiResponse.okCreated uid (f.email.getD "") f.name f.address ∧
    (createUserHandler "POST" (ReqBody.objBody f) db (Except.ok uid)
        roleUpdateErr rid now).1.status = 200 ∧
    (createUserHandler "POST" (ReqBody.objBody f) db (Except.ok uid)
        roleUpdateErr rid now).2 =
      (registerUser db { id := uid, email := f.email.getD "", meta_name := f.name,
                         meta_address := f.address } rid now).db := by
  have h1 : db.users.any (fun au => au.id == uid) = false := by
    rw [List.any_eq_false]
    intro a ha
    simpa using hu a ha
  have h2 : db.profiles.any (fun p => p.id == uid) = false := by
    rw [List.any_eq_false]
    intro a ha
    simpa using hp a ha
  have h3 : db.user_roles.any
      (fun ur => ur.user_id == uid && ur.role == AppRole.normal_user) = false := by
    rw [List.any_eq_false]
    intro a ha
    simp only [Bool.and_eq_true, beq_iff_eq, not_and]
    intro e
    exact absurd e (hr a ha)
  have hcond : (jsTruthyOptStr f.role && (f.role.getD "" != "normal_user")) = false := by
    rcases hrole with h | h <;> simp [jsTruthyOptStr, h]
  refine ⟨?_, ?_, ?_⟩
  · simp [createUserHandler, bodyFields, registerUser, h1, h2, h3, hcond]
  · simp [createUserHandler, bodyFields, registerUser, h1, h2, h3, hcond, ApiResponse.status]
  · simp [createUserHandler, bodyFields, registerUser, h1, h2, h3, hcond]

/-- C9 witness: provisioning identity 8 into `exDB` with no role field, an
oracle that would have failed the role update, and checking the final state
is the trigger output. -/
theorem provisioning_default_role_untouched_witness :
    ((∀ au ∈ exDB.users, au.id ≠ 8) ∧ (∀ p ∈ exDB.profiles, p.id ≠ 8) ∧
     (∀ ur ∈ exDB.user_roles, ur.user_id ≠ 8) ∧
     (exBodyAllNone.role = none ∨ exBodyAllNone.role = some "normal_user")) ∧
    ((createUserHandler "POST" (ReqBody.objBody exBodyAllNone) exDB (Except.ok 8)
        (some "would fail") 53 9).1 =
      ApiResponse.okCreated 8 (exBodyAllNone.email.getD "")
        exBodyAllNone.name exBodyAllNone.address ∧
     (createUserHandler "POST" (ReqBody.objBody exBodyAllNone) exDB (Except.ok 8)
        (some "would fail") 53 9).1.status = 200 ∧
     (createUserHandler "POST" (ReqBody.objBody exBodyAllNone) exDB (Except.ok 8)
        (some "would fail") 53 9).2 =
      (registerUser exDB { id := 8, email := exBodyAllNone.email.getD "",
                           meta_name := exBodyAllNone.name,
                           meta_address := exBodyAllNone.address } 53 9).db) :=
  ⟨⟨by decide, by decide, by decide, by decide⟩,
    provisioning_default_role_untouched exDB exBodyAllNone 8 53 9 (some "would fail")
      (by decide) (by decide) (by decide) (by decide)⟩

/-! ## C7: rating submission is an upsert -/

/-- In a list with pairwise-distinct (user, store) pairs, filtering on the
pair of a member returns exactly that member. -/
theorem pairwise_filter_eq_singleton {l : List Rating}
    (hl : l.Pairwise (fun a b => ¬(a.user_id = b.user_id ∧ a.store_id = b.store_id)))
    {q : Rating} (hq : q ∈ l) :
    l.filter (fun r => r.user_id == q.user_id && r.store_id == q.store_id) = [q] := by
  induction l with
  | nil => cases hq
  | cons a t ih =>
    rw [List.pairwise_cons] at hl
    rcases List.mem_cons.mp hq with rfl | hmem
    · rw [List.filter_cons_of_pos (by simp)]
      have htail : t.filter (fun r => r.user_id == q.user_id && r.store_id == q.store_id)
          = [] := by
        rw [List.filter_eq_nil_iff]
        intro b hb
        have hab := hl.1 b hb
        simp only [Bool.and_eq_true, beq_iff_eq, not_and]
        intro e1 e2
        exact hab ⟨e1.symm, e2.symm⟩
      rw [htail]
    · have hab := hl.1 q hmem
      have hhead : (a.user_id == q.user_id && a.store_id == q.store_id) = false := by
        cases hcase : (a.user_id == q.user_id && a.store_id == q.store_id) with
        | false => rfl
        | true =>
          rw [Bool.and_eq_true, beq_iff_eq, beq_iff_eq] at hcase
          exact absurd hcase hab
      rw [List.filter_cons_of_neg (by simp [hhead])]
      exact ih hl.2 hmem

/-- Filtering commutes with a map that preserves the filtering predicate. -/
theorem filter_map_comm {α : Type} (g : α → α) (p : α → Bool)
    (hpres : ∀ a, p (g a) = p a) (l : List α) :
    (l.map g).filter p = (l.filter p).map g := by
  induction l with
  | nil => rfl
  | cons a t ih =>
    by_cases h : p a = true
    · rw [List.map_cons, List.filter_cons_of_pos (by rw [hpres]; exact h),
        List.filter_cons_of_pos h, List.map_cons, ih]
    · rw [List.map_cons, List.filter_cons_of_neg (by rw [hpres]; exact h),
        List.filter_cons_of_neg h, ih]

/-- C7: rating submission updates in place when the user already has a
rating for the store and inserts otherwise; with the client view in sync
with the database and the pair-uniqueness invariant holding, submitting a
value v in 1..5 succeeds and leaves exactly one rating row for that
(user, store) pair, holding v.  The insert path grows the table by one
row; the update path keeps its length. -/
theorem rating_submit_upsert (db : DB) (u s v newId now : Nat)
    (userRating : Option Nat)
    (hsync : userRating =
      (db.ratings.find? (fun r => r.user_id == u && r.store_id == s)).map Rating.rating)
    (huniq : pairUnique db)
    (hchk : ratingCheckOk v = true)
    (hdbchk : ∀ r ∈ db.ratings, ratingCheckOk r.rating = true)
    (huser : db.users.any (fun au => au.id == u) = true)
    (hstore : db.stores.any (fun st => st.id == s) = true) :
    (handleRatingSubmit db u s userRating v newId now).err = none ∧
    ((handleRatingSubmit db u s userRating v newId now).db.ratings.filter
        (fun r => r.user_id == u && r.store_id == s)).map Rating.rating = [v] ∧
    (userRating = none →
      (handleRatingSubmit db u s userRating v newId now).db.ratings.length =
        db.ratings.length + 1) ∧
    (userRating ≠ none →
      (handleRatingSubmit db u s userRating v newId now).db.ratings.length =
        db.ratings.length) := by
  have hv : 1 ≤ v ∧ v ≤ 5 := by simpa [ratingCheckOk] using hchk
  have hv0 : (v == 0) = false := by
    simp only [beq_eq_false_iff_ne, ne_eq]
    omega
  cases hfind : db.ratings.find? (fun r => r.user_id == u && r.store_id == s) with
  | none =>
    have hur : userRating = none := by rw [hsync, hfind]; rfl
    subst hur
    have hnodup : db.ratings.any (fun q => q.user_id == u && q.store_id == s) = false := by
      rw [List.any_eq_false]
      exact List.find?_eq_none.mp hfind
    have hres : handleRatingSubmit db u s none v newId now =
        { err := none, db := { db with ratings := db.ratings ++
          [{ id := newId, user_id := u, store_id := s, rating := v,
             created_at := now, updated_at := now }] } } := by
      simp [handleRatingSubmit, hv0, jsTruthyOptNat, insertRating, hchk, huser, hstore,
        hnodup]
    have hold : db.ratings.filter (fun r => r.user_id == u && r.store_id == s) = [] := by
      rw [List.filter_eq_nil_iff]
      exact List.find?_eq_none.mp hfind
    refine ⟨by rw [hres], ?_, ?_, ?_⟩
    · rw [hres]
      show ((db.ratings ++ [_]).filter _).map Rating.rating = [v]
      rw [List.filter_append, hold]
      simp
    · intro _
      rw [hres]
      simp
    · intro hne
      exact absurd rfl hne
  | some q =>
    have hq_mem : q ∈ db.ratings := List.mem_of_find?_eq_some hfind
    have hq_pred := List.find?_some hfind
    rw [Bool.and_eq_true, beq_iff_eq, beq_iff_eq] at hq_pred
    obtain ⟨hqu, hqs⟩ := hq_pred
    have hur : userRating = some q.rating := by rw [hsync, hfind]; rfl
    subst hur
    have hqr : 1 ≤ q.rating ∧ q.rating ≤ 5 := by
      simpa [ratingCheckOk] using hdbchk q hq_mem
    have htruthy : jsTruthyOptNat (some q.rating) = true := by
      simp [jsTruthyOptNat]
      omega
    have hres : handleRatingSubmit db u s (some q.rating) v newId now =
        { err := none, db := updateRatingsRows db
            (fun r => r.user_id == u && r.store_id == s)
            (fun r => { r with rating := v }) now } := by
      simp [handleRatingSubmit, hv0, htruthy, hchk]
    have hfilter : db.ratings.filter (fun r => r.user_id == u && r.store_id == s) = [q] := by
      have hsingle := pairwise_filter_eq_singleton huniq hq_mem
      rw [hqu, hqs] at hsingle
      exact hsingle
    have hpres : ∀ r : Rating,
        ((fun r : Rating => r.user_id == u && r.store_id == s)
          (if (r.user_id == u && r.store_id == s) = true then
            update_updated_at_column_rating { r with rating := v } now else r)) =
        (r.user_id == u && r.store_id == s) := by
      intro r
      by_cases h : (r.user_id == u && r.store_id == s) = true
      · rw [if_pos h]
        simp [update_updated_at_column_rating, h]
      · rw [if_neg h]
    refine ⟨by rw [hres], ?_, ?_, ?_⟩
    · rw [hres]
      show (((db.ratings.map _).filter _)).map Rating.rating = [v]
      rw [filter_map_comm _ _ hpres, hfilter]
      simp [update_updated_at_column_rating, hqu, hqs]
    · intro hnone
      exact absurd hnone (by simp)
    · intro _
      rw [hres]
      show (db.ratings.map _).length = db.ratings.length
      rw [List.length_map]

/-- C7 witness: in `exDB`, user 1 already rated store 10 with 4 and
resubmits with 2; the submit succeeds and the pair (1, 10) ends with the
single value 2, the table length unchanged. -/
theorem rating_submit_upsert_witness :
    ((some 4 : Option Nat) =
      (exDB.ratings.find? (fun r => r.user_id == 1 && r.store_id == 10)).map
        Rating.rating ∧
     pairUnique exDB ∧ ratingCheckOk 2 = true ∧
     (∀ r ∈ exDB.ratings, ratingCheckOk r.rating = true) ∧
     exDB.users.any (fun au => au.id == 1) = true ∧
     exDB.stores.any (fun st => st.id == 10) = true) ∧
    ((handleRatingSubmit exDB 1 10 (some 4) 2 103 5).err = none ∧
     ((handleRatingSubmit exDB 1 10 (some 4) 2 103 5).db.ratings.filter
        (fun r => r.user_id == 1 && r.store_id == 10)).map Rating.rating = [2] ∧
     ((some 4 : Option Nat) = none →
       (handleRatingSubmit exDB 1 10 (some 4) 2 103 5).db.ratings.length =
         exDB.ratings.length + 1) ∧
     ((some 4 : Option Nat) ≠ none →
       (handleRatingSubmit exDB 1 10 (some 4) 2 103 5).db.ratings.length =
         exDB.ratings.length)) :=
  ⟨⟨by decide, by decide, by decide, by decide, by decide, by decide⟩,
    rating_submit_upsert exDB 1 10 2 103 5 (some 4) (by decide) (by decide)
      (by decide) (by decide) (by decide) (by decide)⟩

/-! ## C8: the updated_at trigger -/

/-- A list relates by Forall₂ to its image under a map when the relation
holds pointwise. -/
theorem forall2_map_self {α : Type} (R : α → α → Prop) (g : α → α) (l : List α)
    (h : ∀ a ∈ l, R a (g a)) : List.Forall₂ R l (l.map g) := by
  induction l with
  | nil => exact List.Forall₂.nil
  | cons a t ih =>
    rw [List.map_cons]
    exact List.Forall₂.cons (h a (List.mem_cons_self a t))
      (ih (fun b hb => h b (List.mem_cons_of_mem a hb)))

/-- C8: on any update to `profiles`, `stores` or `ratings`, every matched
row gets `updated_at` overwritten with the current time — whatever value
the caller supplied for that column in the SET clause — while every other
column of the matched row is exactly what the caller set and unmatched rows
are untouched; under a monotone clock the new `updated_at` is ≥ the old. -/
theorem update_timestamps_overwrite (db : DB) (now : Nat)
    (predR : Rating → Bool) (fR : Rating → Rating)
    (predP : Profile → Bool) (fP : Profile → Profile)
    (predS : Store → Bool) (fS : Store → Store)
    (hR : ∀ r ∈ db.ratings, r.updated_at ≤ now)
    (hP : ∀ p ∈ db.profiles, p.updated_at ≤ now)
    (hS : ∀ s ∈ db.stores, s.updated_at ≤ now) :
    List.Forall₂ (fun r q : Rating =>
        (predR r = true → q.updated_at = now ∧ q.id = (fR r).id ∧
          q.user_id = (fR r).user_id ∧ q.store_id = (fR r).store_id ∧
          q.rating = (fR r).rating ∧ q.created_at = (fR r).created_at ∧
          r.updated_at ≤ q.updated_at) ∧
        (predR r = false → q = r))
      db.ratings (updateRatingsRows db predR fR now).ratings ∧
    List.Forall₂ (fun p q : Profile =>
        (predP p = true → q.updated_at = now ∧ q.id = (fP p).id ∧
          q.name = (fP p).name ∧ q.email = (fP p).email ∧
          q.address = (fP p).address ∧ q.created_at = (fP p).created_at ∧
          p.updated_at ≤ q.updated_at) ∧
        (predP p = false → q = p))
      db.profiles (updateProfilesRows db predP fP now).profiles ∧
    List.Forall₂ (fun s q : Store =>
        (predS s = true → q.updated_at = now ∧ q.id = (fS s).id ∧
          q.owner_id = (fS s).owner_id ∧ q.name = (fS s).name ∧
          q.email = (fS s).email ∧ q.address = (fS s).address ∧
          q.created_at = (fS s).created_at ∧ s.updated_at ≤ q.updated_at) ∧
        (predS s = false → q = s))
      db.stores (updateStoresRows db predS fS now).stores := by
  refine ⟨?_, ?_, ?_⟩
  · apply forall2_map_self
    intro r hr
    refine ⟨fun hpr => ?_, fun hpr => ?_⟩
    · rw [if_pos hpr]
      exact ⟨rfl, rfl, rfl, rfl, rfl, rfl, hR r hr⟩
    · rw [if_neg (by simp [hpr])]
  · apply forall2_map_self
    intro p hp
    refine ⟨fun hpr => ?_, fun hpr => ?_⟩
    · rw [if_pos hpr]
      exact ⟨rfl, rfl, rfl, rfl, rfl, rfl, hP p hp⟩
    · rw [if_neg (by simp [hpr])]
  · apply forall2_map_self
    intro s hs
    refine ⟨fun hpr => ?_, fun hpr => ?_⟩
    · rw [if_pos hpr]
      exact ⟨rfl, rfl, rfl, rfl, rfl, rfl, rfl, hS s hs⟩
    · rw [if_neg (by simp [hpr])]

/-- C8 witness: updates on `exDB` at time 5 whose SET clauses all try to
force `updated_at := 999`. -/
theorem update_timestamps_overwrite_witness :
    ((∀ r ∈ exDB.ratings, r.updated_at ≤ 5) ∧
     (∀ p ∈ exDB.profiles, p.updated_at ≤ 5) ∧
     (∀ s ∈ exDB.stores, s.updated_at ≤ 5)) ∧
    (List.Forall₂ (fun r q : Rating =>
        (exPredR r = true → q.updated_at = 5 ∧ q.id = (exFR r).id ∧
          q.user_id = (exFR r).user_id ∧ q.store_id = (exFR r).store_id ∧
          q.rating = (exFR r).rating ∧ q.created_at = (exFR r).created_at ∧
          r.updated_at ≤ q.updated_at) ∧
        (exPredR r = false → q = r))
      exDB.ratings (updateRatingsRows exDB exPredR exFR 5).ratings ∧
     List.Forall₂ (fun p q : Profile =>
        (exPredP p = true → q.updated_at = 5 ∧ q.id = (exFP p).id ∧
          q.name = (exFP p).name ∧ q.email = (exFP p).email ∧
          q.address = (exFP p).address ∧ q.created_at = (exFP p).created_at ∧
          p.updated_at ≤ q.updated_at) ∧
        (exPredP p = false → q = p))
      exDB.profiles (updateProfilesRows exDB exPredP exFP 5).profiles ∧
     List.Forall₂ (fun s q : Store =>
        (exPredS s = true → q.updated_at = 5 ∧ q.id = (exFS s).id ∧
          q.owner_id = (exFS s).owner_id ∧ q.name = (exFS s).name ∧
          q.email = (exFS s).email ∧ q.address = (exFS s).address ∧
          q.created_at = (exFS s).created_at ∧ s.updated_at ≤ q.updated_at) ∧
        (exPredS s = false → q = s))
      exDB.stores (updateStoresRows exDB exPredS exFS 5).stores) :=
  ⟨⟨by decide, by decide, by decide⟩,
    update_timestamps_overwrite exDB 5 exPredR exFR exPredP exFP exPredS exFS
      (by decide) (by decide) (by decide)⟩

/-! ## C10: admin store creation never checks the role update -/

/-- C10: with the owner found and the store insert succeeding, `createStore`
reports success even when the role update fails; the store row exists with
the looked-up owner while `user_roles` is completely unchanged — in
particular the owner holds the store_owner role afterwards exactly when
they already held it before.  When the role update succeeds instead, the
role rows of the owner are set to store_owner. -/
theorem create_store_role_update_unchecked (db : DB)
    (name email address ownerEmail : String) (newStoreId now : Nat)
    (owner : Profile) (howner : singleProfileByEmail db ownerEmail = some owner) :
    (createStore db name email address ownerEmail newStoreId none true now).1 =
      CreateStoreOutcome.success ∧
    (∃ st ∈ (createStore db name email address ownerEmail newStoreId none true now).2.stores,
      st.id = newStoreId ∧ st.owner_id = owner.id) ∧
    (createStore db name email address ownerEmail newStoreId none true now).2.user_roles =
      db.user_roles ∧
    (has_role (createStore db name email address ownerEmail newStoreId none true now).2
        owner.id AppRole.store_owner =
      has_role db owner.id AppRole.store_owner) ∧
    ((createStore db name email address ownerEmail newStoreId none false now).2.user_roles =
      db.user_roles.map (fun ur =>
        if ur.user_id == owner.id then { ur with role := AppRole.store_owner } else ur)) := by
  have hres : createStore db name email address ownerEmail newStoreId none true now =
      (CreateStoreOutcome.success,
        { db with stores := db.stores ++
          [{ id := newStoreId, owner_id := owner.id, name := name, email := email,
             address := address, created_at := now, updated_at := now }] }) := by
    simp [createStore, howner]
  refine ⟨by rw [hres], ?_, by rw [hres], by rw [hres]; rfl, ?_⟩
  · rw [hres]
    exact ⟨_, List.mem_append_right _ (List.mem_singleton_self _), rfl, rfl⟩
  · simp [createStore, howner]

/-- C10 witness: creating a store in `exDB` owned by the profile with
email "b" (user 2, a normal_user), with the role update failing. -/
theorem create_store_role_update_unchecked_witness :
    singleProfileByEmail exDB "b" =
      some { id := 2, name := "Bob", email := "b", address := "Main St",
             created_at := 0, updated_at := 0 } ∧
    ((createStore exDB "S3" "s3" "Side St" "b" 12 none true 6).1 =
      CreateStoreOutcome.success ∧
     (∃ st ∈ (createStore exDB "S3" "s3" "Side St" "b" 12 none true 6).2.stores,
       st.id = 12 ∧ st.owner_id = 2) ∧
     (createStore exDB "S3" "s3" "Side St" "b" 12 none true 6).2.user_roles =
       exDB.user_roles ∧
     (has_role (createStore exDB "S3" "s3" "Side St" "b" 12 none true 6).2
        2 AppRole.store_owner = has_role exDB 2 AppRole.store_owner) ∧
     ((createStore exDB "S3" "s3" "Side St" "b" 12 none false 6).2.user_roles =
       exDB.user_roles.map (fun ur =>
         if ur.user_id == 2 then { ur with role := AppRole.store_owner } else ur))) :=
  ⟨by decide,
    create_store_role_update_unchecked exDB "S3" "s3" "Side St" "b" 12 6
      { id := 2, name := "Bob", email := "b", address := "Main St",
        created_at := 0, updated_at := 0 } (by decide)⟩

end ScoreRating
